import Mathlib

/-!
Verification development for a browser kanban/notes application that persists
its state to local JSON files through a directory handle.

The embedding below follows the source modules:

  * store.tsx                : task store (addTask, updateTask, deleteTask, moveTask,
                               saveData, showToast)
  * notes store module       : note store (addNote, updateNote, deleteNote,
                               toggleFavorite, loadNotes, saveData)
  * fileSystem.ts            : storage adapter (saveKanbanData, saveNotesData,
                               loadKanbanData, loadNotesData) and the validation
                               layer (isValidTask, isValidKanbanData, isValidNote,
                               isValidNotesData)
  * types.ts                 : Task, KanbanData, Note, NotesData, TaskStatus
  * Toast.tsx                : ToastType, ToastMessage

Modelling conventions:

  * Each store operation runs between two suspension points at a single instant,
    modelled by one `DateVal` value per operation (the source reads the clock
    several times inside one operation body; all reads happen within the same
    event-loop turn).  A `DateVal` models a JavaScript `Date`: `ms` is the
    epoch-millisecond value (`Date.now()`), `iso` the `toISOString()` rendering.
  * Task timestamps are ISO-8601 UTC strings in the source; equal-format ISO
    strings compare lexicographically exactly as their instants compare
    chronologically, so task timestamps are modelled by the `ms` value `Nat`.
    Note timestamps are never compared by any property below, so they stay
    `String` exactly as in the source.
  * The random id suffix `Math.random().toString(36).substr(2, 9)` is modelled
    by a `rand : String` parameter of each operation that generates an id.
  * The outcome of the underlying file-system write (`saveKanbanData` /
    `saveNotesData`, which either resolves or rejects with an `Error` whose
    message the store shows) is modelled by `Env.save : SaveResult`.  Attempted
    writes are recorded in a `writes` log so that "no persistence attempted"
    is an observable statement.
  * The outcome of the file-system read machinery underneath `loadKanbanData` /
    `loadNotesData` (missing handle, denied permission, missing file, raw file
    contents) is modelled by `ReadEnv`; parsed JSON is a `JsonVal` tree.
-/

namespace Kanban

/-- TaskStatus from types.ts: the literal union todo | in-progress | done. -/
inductive TaskStatus where
  | todo
  | inProgress
  | done
deriving Repr, DecidableEq

/-- Task from types.ts.  Timestamps are modelled as epoch-millisecond values
(see the module comment). -/
structure Task where
  id : String
  title : String
  description : String
  status : TaskStatus
  createdAt : Nat
  updatedAt : Nat
deriving Repr, DecidableEq

/-- KanbanData from types.ts: the persisted kanban document. -/
structure KanbanData where
  tasks : List Task
  lastModified : Nat
deriving Repr, DecidableEq

/-- Note from types.ts.  `tags` is optional there (`tags?: string[]`), hence
`Option`; timestamps stay strings (never compared below). -/
structure Note where
  id : String
  title : String
  content : String
  tags : Option (List String)
  isFavorite : Bool
  createdAt : String
  updatedAt : String
deriving Repr, DecidableEq

/-- NotesData from types.ts: the persisted notes document. -/
structure NotesData where
  notes : List Note
  lastModified : String
deriving Repr, DecidableEq

/-- ToastType from Toast.tsx: success | error | info | warning. -/
inductive ToastType where
  | success
  | error
  | info
  | warning
deriving Repr, DecidableEq

/-- ToastMessage from Toast.tsx. -/
structure ToastMessage where
  id : String
  message : String
  type : ToastType
deriving Repr, DecidableEq

/-- Model of a JavaScript `Date` value read during one operation:
`ms` is `Date.now()`, `iso` is `toISOString()`. -/
structure DateVal where
  ms : Nat
  iso : String
deriving Repr, DecidableEq

/-- Outcome of one underlying adapter write call (`saveKanbanData` /
`saveNotesData`): it resolves, or rejects with an `Error` carrying `msg`. -/
inductive SaveResult where
  | ok
  | error (msg : String)
deriving Repr, DecidableEq

/-- Ambient environment of one store operation: whether
`hasDirectorySelected()` is true, and how the adapter write would end. -/
structure Env where
  dirSelected : Bool
  save : SaveResult
deriving Repr, DecidableEq

/-- Id generated by addTask in store.tsx:
`task-${Date.now()}-${random suffix}`. -/
def mkTaskId (clk : DateVal) (rand : String) : String :=
  "task-" ++ toString clk.ms ++ "-" ++ rand

/-- Id generated by addNote in the notes store:
`note-${Date.now()}-${random suffix}`. -/
def mkNoteId (clk : DateVal) (rand : String) : String :=
  "note-" ++ toString clk.ms ++ "-" ++ rand

/-- Id generated by showToast in store.tsx:
`toast-${Date.now()}-${random suffix}`. -/
def mkToastId (clk : DateVal) (rand : String) : String :=
  "toast-" ++ toString clk.ms ++ "-" ++ rand

/-- showToast from store.tsx: appends one message to the toast queue. -/
def showToast (clk : DateVal) (rand : String) (message : String) (ty : ToastType)
    (toasts : List ToastMessage) : List ToastMessage :=
  toasts ++ [{ id := mkToastId clk rand, message := message, type := ty }]

/-- State owned by the task store provider: the task collection and the toast
queue, plus a log of the documents handed to `saveKanbanData` (so that
persistence attempts are observable in the model). -/
structure KanbanState where
  tasks : List Task
  toasts : List ToastMessage
  writes : List KanbanData
deriving Repr, DecidableEq

/-- State owned by the note store provider (its `showToast` is the same toast
queue, passed in as a prop). -/
structure NotesState where
  notes : List Note
  toasts : List ToastMessage
  writes : List NotesData
  isLoading : Bool
deriving Repr, DecidableEq

/-- Toast messages of the task store (store.tsx). -/
def taskAddedMsg : String := "タスクを追加しました。"

def taskAddedUnsavedMsg : String := "タスクを追加しました。（保存先未設定）"

def taskUpdatedMsg : String := "タスクを更新しました。"

def taskUpdatedUnsavedMsg : String := "タスクを更新しました。（保存先未設定）"

def taskDeletedMsg : String := "タスクを削除しました。"

def taskDeletedUnsavedMsg : String := "タスクを削除しました。（保存先未設定）"

/-- Toast messages of the note store. -/
def noteAddedMsg : String := "メモを追加しました。"

def noteAddedUnsavedMsg : String := "メモを追加しました。（保存先未設定）"

def noteUpdatedMsg : String := "メモを更新しました。"

def noteUpdatedUnsavedMsg : String := "メモを更新しました。（保存先未設定）"

def noteDeletedMsg : String := "メモを削除しました。"

def noteDeletedUnsavedMsg : String := "メモを削除しました。（保存先未設定）"

/-- saveData from store.tsx: wraps the task list into a document stamped with
the current instant, calls `saveKanbanData`, and on rejection shows one
error toast and reports failure. -/
def saveData (env : Env) (clk : DateVal) (rand : String) (updatedTasks : List Task)
    (s : KanbanState) : Bool × KanbanState :=
  let doc : KanbanData := { tasks := updatedTasks, lastModified := clk.ms }
  match env.save with
  | SaveResult.ok => (true, { s with writes := s.writes ++ [doc] })
  | SaveResult.error msg =>
      (false, { s with writes := s.writes ++ [doc],
                       toasts := showToast clk rand msg ToastType.error s.toasts })

/-- Task value built by addTask in store.tsx. -/
def newTaskMk (clk : DateVal) (rand : String) (title description : String) : Task :=
  { id := mkTaskId clk rand, title := title, description := description,
    status := TaskStatus.todo, createdAt := clk.ms, updatedAt := clk.ms }

/-- addTask from store.tsx: optimistic append, then persist when a directory is
held; rollback to the pre-call collection when the write fails. -/
def addTask (env : Env) (clk : DateVal) (rand : String) (title description : String)
    (s : KanbanState) : KanbanState :=
  let newTask := newTaskMk clk rand title description
  let updatedTasks := s.tasks ++ [newTask]
  let s1 : KanbanState := { s with tasks := updatedTasks }
  if env.dirSelected then
    match saveData env clk rand updatedTasks s1 with
    | (true, s2) =>
        { s2 with toasts := showToast clk rand taskAddedMsg ToastType.success s2.toasts }
    | (false, s2) => { s2 with tasks := s.tasks }
  else
    { s1 with toasts := showToast clk rand taskAddedUnsavedMsg ToastType.warning s1.toasts }

/-- Partial Task from store.tsx (`updates: Partial<Task>`): every field may be
absent. -/
structure TaskUpdates where
  id : Option String := none
  title : Option String := none
  description : Option String := none
  status : Option TaskStatus := none
  createdAt : Option Nat := none
  updatedAt : Option Nat := none
deriving Repr, DecidableEq

/-- Spread merge `{ ...task, ...updates, updatedAt: now }` from updateTask:
a present update field wins over the task field, and the trailing `updatedAt`
always wins over both (so `updates.updatedAt` is dead). -/
def applyTaskUpdates (t : Task) (u : TaskUpdates) (nowMs : Nat) : Task :=
  { id := u.id.getD t.id,
    title := u.title.getD t.title,
    description := u.description.getD t.description,
    status := u.status.getD t.status,
    createdAt := u.createdAt.getD t.createdAt,
    updatedAt := nowMs }

/-- updateTask from store.tsx: optimistic shallow merge on the matching id,
persist when a directory is held, rollback to the snapshot on failure. -/
def updateTask (env : Env) (clk : DateVal) (rand : String) (id : String)
    (u : TaskUpdates) (s : KanbanState) : KanbanState :=
  let previousTasks := s.tasks
  let updatedTasks := s.tasks.map (fun t => if t.id = id then applyTaskUpdates t u clk.ms else t)
  let s1 : KanbanState := { s with tasks := updatedTasks }
  if env.dirSelected then
    match saveData env clk rand updatedTasks s1 with
    | (true, s2) =>
        { s2 with toasts := showToast clk rand taskUpdatedMsg ToastType.success s2.toasts }
    | (false, s2) => { s2 with tasks := previousTasks }
  else
    { s1 with toasts := showToast clk rand taskUpdatedUnsavedMsg ToastType.warning s1.toasts }

/-- deleteTask from store.tsx: optimistic filter, persist, rollback on
failure. -/
def deleteTask (env : Env) (clk : DateVal) (rand : String) (id : String)
    (s : KanbanState) : KanbanState :=
  let previousTasks := s.tasks
  let updatedTasks := s.tasks.filter (fun t => t.id != id)
  let s1 : KanbanState := { s with tasks := updatedTasks }
  if env.dirSelected then
    match saveData env clk rand updatedTasks s1 with
    | (true, s2) =>
        { s2 with toasts := showToast clk rand taskDeletedMsg ToastType.success s2.toasts }
    | (false, s2) => { s2 with tasks := previousTasks }
  else
    { s1 with toasts := showToast clk rand taskDeletedUnsavedMsg ToastType.warning s1.toasts }

/-- moveTask from store.tsx: `updateTask(taskId, { status: newStatus })`. -/
def moveTask (env : Env) (clk : DateVal) (rand : String) (taskId : String)
    (newStatus : TaskStatus) (s : KanbanState) : KanbanState :=
  updateTask env clk rand taskId { status := some newStatus } s

/-- saveData of the notes store: same shape as the task one, writing a notes
document via `saveNotesData`. -/
def saveDataNotes (env : Env) (clk : DateVal) (rand : String) (updatedNotes : List Note)
    (s : NotesState) : Bool × NotesState :=
  let doc : NotesData := { notes := updatedNotes, lastModified := clk.iso }
  match env.save with
  | SaveResult.ok => (true, { s with writes := s.writes ++ [doc] })
  | SaveResult.error msg =>
      (false, { s with writes := s.writes ++ [doc],
                       toasts := showToast clk rand msg ToastType.error s.toasts })

/-- Note value built by addNote: `tags: tags || []`, `isFavorite: false`, both
timestamps the current instant. -/
def newNoteMk (clk : DateVal) (rand : String) (title content : String)
    (tags : Option (List String)) : Note :=
  { id := mkNoteId clk rand, title := title, content := content,
    tags := some (tags.getD []), isFavorite := false,
    createdAt := clk.iso, updatedAt := clk.iso }

/-- addNote from the notes store: the new note is prepended; returns the note
on success (or when unsaved) and `none` after a rollback. -/
def addNote (env : Env) (clk : DateVal) (rand : String) (title content : String)
    (tags : Option (List String)) (s : NotesState) : Option Note × NotesState :=
  let newNote := newNoteMk clk rand title content tags
  let updatedNotes := newNote :: s.notes
  let s1 : NotesState := { s with notes := updatedNotes }
  if env.dirSelected then
    match saveDataNotes env clk rand updatedNotes s1 with
    | (true, s2) =>
        (some newNote,
         { s2 with toasts := showToast clk rand noteAddedMsg ToastType.success s2.toasts })
    | (false, s2) => (none, { s2 with notes := s.notes })
  else
    (some newNote,
     { s1 with toasts := showToast clk rand noteAddedUnsavedMsg ToastType.warning s1.toasts })

/-- Partial Note (`updates: Partial<Note>`).  A present `tags` field carries an
`Option (List String)` because `Note.tags` is itself optional. -/
structure NoteUpdates where
  id : Option String := none
  title : Option String := none
  content : Option String := none
  tags : Option (Option (List String)) := none
  isFavorite : Option Bool := none
  createdAt : Option String := none
  updatedAt : Option String := none
deriving Repr, DecidableEq

/-- Spread merge `{ ...note, ...updates, updatedAt: now }` from updateNote. -/
def applyNoteUpdates (n : Note) (u : NoteUpdates) (nowIso : String) : Note :=
  { id := u.id.getD n.id,
    title := u.title.getD n.title,
    content := u.content.getD n.content,
    tags := match u.tags with
            | none => n.tags
            | some v => v,
    isFavorite := u.isFavorite.getD n.isFavorite,
    createdAt := u.createdAt.getD n.createdAt,
    updatedAt := nowIso }

/-- updateNote from the notes store: optimistic shallow merge on the matching
id, persist, rollback on failure. -/
def updateNote (env : Env) (clk : DateVal) (rand : String) (id : String)
    (u : NoteUpdates) (s : NotesState) : NotesState :=
  let previousNotes := s.notes
  let updatedNotes := s.notes.map (fun n => if n.id = id then applyNoteUpdates n u clk.iso else n)
  let s1 : NotesState := { s with notes := updatedNotes }
  if env.dirSelected then
    match saveDataNotes env clk rand updatedNotes s1 with
    | (true, s2) =>
        { s2 with toasts := showToast clk rand noteUpdatedMsg ToastType.success s2.toasts }
    | (false, s2) => { s2 with notes := previousNotes }
  else
    { s1 with toasts := showToast clk rand noteUpdatedUnsavedMsg ToastType.warning s1.toasts }

/-- deleteNote from the notes store. -/
def deleteNote (env : Env) (clk : DateVal) (rand : String) (id : String)
    (s : NotesState) : NotesState :=
  let previousNotes := s.notes
  let updatedNotes := s.notes.filter (fun n => n.id != id)
  let s1 : NotesState := { s with notes := updatedNotes }
  if env.dirSelected then
    match saveDataNotes env clk rand updatedNotes s1 with
    | (true, s2) =>
        { s2 with toasts := showToast clk rand noteDeletedMsg ToastType.success s2.toasts }
    | (false, s2) => { s2 with notes := previousNotes }
  else
    { s1 with toasts := showToast clk rand noteDeletedUnsavedMsg ToastType.warning s1.toasts }

/-- toggleFavorite from the notes store: look the note up; a missing id returns
at once, otherwise delegate to updateNote with the flipped flag. -/
def toggleFavorite (env : Env) (clk : DateVal) (rand : String) (id : String)
    (s : NotesState) : NotesState :=
  match s.notes.find? (fun n => n.id == id) with
  | none => s
  | some note => updateNote env clk rand id { isFavorite := some (!note.isFavorite) } s

/-- Parsed JSON value, as produced by `JSON.parse`. -/
inductive JsonVal where
  | null
  | bool (b : Bool)
  | num (n : Int)
  | str (s : String)
  | arr (xs : List JsonVal)
  | obj (fields : List (String × JsonVal))
deriving Repr

/-- Property access `obj[key]` on a parsed JSON value: `none` models
`undefined` (absent property or non-object receiver after the guards of the
validators have already excluded those). -/
def getField (j : JsonVal) (key : String) : Option JsonVal :=
  match j with
  | JsonVal.obj fields => (fields.find? (fun f => f.fst == key)).map Prod.snd
  | _ => none

/-- Check `typeof v === "string"` on a property value. -/
def isJString : Option JsonVal → Bool
  | some (JsonVal.str _) => true
  | _ => false

/-- Check `typeof v === "boolean"` on a property value. -/
def isJBool : Option JsonVal → Bool
  | some (JsonVal.bool _) => true
  | _ => false

/-- Status check of isValidTask:
`status === "todo" || status === "in-progress" || status === "done"`. -/
def statusFieldOk : Option JsonVal → Bool
  | some (JsonVal.str s) => s == "todo" || s == "in-progress" || s == "done"
  | _ => false

/-- isValidTask from fileSystem.ts: field-by-field structural check of one
parsed task.  The leading non-object guard of the source is subsumed because
`getField` yields `undefined` on every non-object value. -/
def isValidTask (task : JsonVal) : Bool :=
  isJString (getField task "id") &&
  isJString (getField task "title") &&
  isJString (getField task "description") &&
  statusFieldOk (getField task "status") &&
  isJString (getField task "createdAt") &&
  isJString (getField task "updatedAt")

/-- isValidKanbanData from fileSystem.ts: `tasks` must be an array of valid
tasks and `lastModified` a string. -/
def isValidKanbanData (data : JsonVal) : Bool :=
  match getField data "tasks" with
  | some (JsonVal.arr ts) => ts.all isValidTask && isJString (getField data "lastModified")
  | _ => false

/-- Tags check of isValidNote:
`tags === undefined || Array.isArray(tags)`. -/
def tagsFieldOk : Option JsonVal → Bool
  | none => true
  | some (JsonVal.arr _) => true
  | some _ => false

/-- isValidNote from fileSystem.ts: field-by-field structural check of one
parsed note; `tags` may be absent, otherwise it must be an array (element
types are not checked by the source either). -/
def isValidNote (note : JsonVal) : Bool :=
  isJString (getField note "id") &&
  isJString (getField note "title") &&
  isJString (getField note "content") &&
  isJBool (getField note "isFavorite") &&
  isJString (getField note "createdAt") &&
  isJString (getField note "updatedAt") &&
  tagsFieldOk (getField note "tags")

/-- isValidNotesData from fileSystem.ts: `notes` must be an array of valid
notes and `lastModified` a string. -/
def isValidNotesData (data : JsonVal) : Bool :=
  match getField data "notes" with
  | some (JsonVal.arr ns) => ns.all isValidNote && isJString (getField data "lastModified")
  | _ => false

/-- Error messages raised by loadKanbanData / loadNotesData in fileSystem.ts.
Both contain the substring the outer catch tests for, so they are re-raised
verbatim by the wrapping logic. -/
def kanbanParseErrorMsg : String := "データファイルの形式が正しくありません。"

def kanbanStructErrorMsg : String := "データファイルの構造が正しくありません。"

def notesParseErrorMsg : String := "メモデータファイルの形式が正しくありません。"

def notesStructErrorMsg : String := "メモデータファイルの構造が正しくありません。"

/-- Situation the adapter read machinery finds for the targeted file:
no directory handle held, read-write permission denied, file absent
(`NotFoundError` from `getFileHandle`), or the file's contents, given as the
result of `JSON.parse` (`none` when parsing throws). -/
inductive ReadEnv where
  | noHandle
  | permissionDenied
  | fileMissing
  | fileContents (parsed : Option JsonVal)
deriving Repr

/-- loadKanbanData from fileSystem.ts.  With no handle or without permission it
returns null; a missing file returns null; a parse failure raises the format
error; a validation failure raises the structure error; otherwise the parsed
document is returned. -/
def loadKanbanData (renv : ReadEnv) : Except String (Option JsonVal) :=
  match renv with
  | ReadEnv.noHandle => Except.ok none
  | ReadEnv.permissionDenied => Except.ok none
  | ReadEnv.fileMissing => Except.ok none
  | ReadEnv.fileContents none => Except.error kanbanParseErrorMsg
  | ReadEnv.fileContents (some d) =>
      if isValidKanbanData d then Except.ok (some d) else Except.error kanbanStructErrorMsg

/-- loadNotesData from fileSystem.ts: same shape as loadKanbanData for the
notes document. -/
def loadNotesData (renv : ReadEnv) : Except String (Option JsonVal) :=
  match renv with
  | ReadEnv.noHandle => Except.ok none
  | ReadEnv.permissionDenied => Except.ok none
  | ReadEnv.fileMissing => Except.ok none
  | ReadEnv.fileContents none => Except.error notesParseErrorMsg
  | ReadEnv.fileContents (some d) =>
      if isValidNotesData d then Except.ok (some d) else Except.error notesStructErrorMsg

/-- String content of a JSON value (used only under the validators, where the
field is known to be a string). -/
def jsonString (j : JsonVal) : String :=
  match j with
  | JsonVal.str s => s
  | _ => ""

/-- String content of a property value. -/
def jsonStringOpt (o : Option JsonVal) : String := jsonString (o.getD JsonVal.null)

/-- Boolean content of a property value. -/
def jsonBoolOpt (o : Option JsonVal) : Bool :=
  match o with
  | some (JsonVal.bool b) => b
  | _ => false

/-- Tags of a parsed note: an absent property stays absent, an array is kept.
Element contents are read as strings; the source guard does not constrain
element types either, so this is exact on every document it accepts whose tag
elements are strings. -/
def decodeTags : Option JsonVal → Option (List String)
  | some (JsonVal.arr xs) => some (xs.map jsonString)
  | _ => none

/-- Typed view of one parsed note.  The source performs a type assertion
(`parsedData as NotesData`) instead of a conversion; on documents accepted by
isValidNotesData this field extraction is that assertion. -/
def decodeNote (n : JsonVal) : Note :=
  { id := jsonStringOpt (getField n "id"),
    title := jsonStringOpt (getField n "title"),
    content := jsonStringOpt (getField n "content"),
    tags := decodeTags (getField n "tags"),
    isFavorite := jsonBoolOpt (getField n "isFavorite"),
    createdAt := jsonStringOpt (getField n "createdAt"),
    updatedAt := jsonStringOpt (getField n "updatedAt") }

/-- Elements of the `notes` property of a parsed notes document. -/
def docNotes (doc : JsonVal) : List JsonVal :=
  match getField doc "notes" with
  | some (JsonVal.arr xs) => xs
  | _ => []

/-- Typed view of the note collection of a parsed notes document
(`data.notes` after the source's type assertion). -/
def decodeNotesDoc (doc : JsonVal) : List Note :=
  (docNotes doc).map decodeNote

/-- loadNotes from the notes store: when a directory is held, read the notes
document; populate the collection from it when present; on a raised error show
one error toast and leave the collection as it was; always clear the loading
flag. -/
def loadNotes (env : Env) (renv : ReadEnv) (clk : DateVal) (rand : String)
    (s : NotesState) : NotesState :=
  if env.dirSelected then
    match loadNotesData renv with
    | Except.ok none => { s with isLoading := false }
    | Except.ok (some doc) => { s with notes := decodeNotesDoc doc, isLoading := false }
    | Except.error msg =>
        { s with toasts := showToast clk rand msg ToastType.error s.toasts,
                 isLoading := false }
  else
    { s with isLoading := false }

/-- Resolution of a note's optional tags at the use sites
(`note.tags || []` in the editor component). -/
def resolvedTags (n : Note) : List String := n.tags.getD []

/-- One task-store mutation request, carrying the instants and random suffixes
the operation would draw. -/
inductive TaskOp where
  | add (clk : DateVal) (rand : String) (title description : String)
  | update (clk : DateVal) (rand : String) (id : String) (u : TaskUpdates)
  | del (clk : DateVal) (rand : String) (id : String)
deriving Repr

/-- Dispatch one task-store mutation. -/
def runTaskOp (env : Env) (op : TaskOp) (s : KanbanState) : KanbanState :=
  match op with
  | TaskOp.add clk rand title description => addTask env clk rand title description s
  | TaskOp.update clk rand id u => updateTask env clk rand id u s
  | TaskOp.del clk rand id => deleteTask env clk rand id s

/-- Run a sequence of task-store mutations in order. -/
def runTaskOps (env : Env) (ops : List TaskOp) (s : KanbanState) : KanbanState :=
  ops.foldl (fun st op => runTaskOp env op st) s

/-- Pure collection-level meaning of one task-store mutation: exactly the
`updatedTasks` computation of the corresponding store operation. -/
def applyTaskOpPure (op : TaskOp) (ts : List Task) : List Task :=
  match op with
  | TaskOp.add clk rand title description => ts ++ [newTaskMk clk rand title description]
  | TaskOp.update clk _ id u => ts.map (fun t => if t.id = id then applyTaskUpdates t u clk.ms else t)
  | TaskOp.del _ _ id => ts.filter (fun t => t.id != id)

/-- Collection value computed optimistically by updateTask. -/
def updatedTasksOf (clk : DateVal) (id : String) (u : TaskUpdates)
    (ts : List Task) : List Task :=
  ts.map (fun t => if t.id = id then applyTaskUpdates t u clk.ms else t)

/-- Collection value computed optimistically by updateNote. -/
def updatedNotesOf (clk : DateVal) (id : String) (u : NoteUpdates)
    (ns : List Note) : List Note :=
  ns.map (fun n => if n.id = id then applyNoteUpdates n u clk.iso else n)

/-- Error toast appended by a failed write. -/
def errorToast (clk : DateVal) (rand : String) (msg : String) : ToastMessage :=
  { id := mkToastId clk rand, message := msg, type := ToastType.error }

theorem addTask_nodir_eq (env : Env) (clk : DateVal) (rand : String)
    (title description : String) (s : KanbanState) (hdir : env.dirSelected = false) :
    addTask env clk rand title description s
      = { s with tasks := s.tasks ++ [newTaskMk clk rand title description],
                 toasts := showToast clk rand taskAddedUnsavedMsg ToastType.warning s.toasts } := by
  simp [addTask, hdir]

theorem addTask_ok_eq (env : Env) (clk : DateVal) (rand : String)
    (title description : String) (s : KanbanState) (hdir : env.dirSelected = true)
    (hsave : env.save = SaveResult.ok) :
    addTask env clk rand title description s
      = { s with tasks := s.tasks ++ [newTaskMk clk rand title description],
                 writes := s.writes ++ [{ tasks := s.tasks ++ [newTaskMk clk rand title description],
                                          lastModified := clk.ms }],
                 toasts := showToast clk rand taskAddedMsg ToastType.success s.toasts } := by
  simp [addTask, saveData, hdir, hsave]

theorem addTask_fail_eq (env : Env) (clk : DateVal) (rand : String)
    (title description : String) (s : KanbanState) (msg : String)
    (hdir : env.dirSelected = true) (hsave : env.save = SaveResult.error msg) :
    addTask env clk rand title description s
      = { s with writes := s.writes ++ [{ tasks := s.tasks ++ [newTaskMk clk rand title description],
                                          lastModified := clk.ms }],
                 toasts := s.toasts ++ [errorToast clk rand msg] } := by
  simp [addTask, saveData, hdir, hsave, showToast, errorToast]

theorem updateTask_nodir_eq (env : Env) (clk : DateVal) (rand : String) (id : String)
    (u : TaskUpdates) (s : KanbanState) (hdir : env.dirSelected = false) :
    updateTask env clk rand id u s
      = { s with tasks := updatedTasksOf clk id u s.tasks,
                 toasts := showToast clk rand taskUpdatedUnsavedMsg ToastType.warning s.toasts } := by
  simp [updateTask, hdir, updatedTasksOf]

theorem updateTask_ok_eq (env : Env) (clk : DateVal) (rand : String) (id : String)
    (u : TaskUpdates) (s : KanbanState) (hdir : env.dirSelected = true)
    (hsave : env.save = SaveResult.ok) :
    updateTask env clk rand id u s
      = { s with tasks := updatedTasksOf clk id u s.tasks,
                 writes := s.writes ++ [{ tasks := updatedTasksOf clk id u s.tasks,
                                          lastModified := clk.ms }],
                 toasts := showToast clk rand taskUpdatedMsg ToastType.success s.toasts } := by
  simp [updateTask, saveData, hdir, hsave, updatedTasksOf]

theorem updateTask_fail_eq (env : Env) (clk : DateVal) (rand : String) (id : String)
    (u : TaskUpdates) (s : KanbanState) (msg : String)
    (hdir : env.dirSelected = true) (hsave : env.save = SaveResult.error msg) :
    updateTask env clk rand id u s
      = { s with writes := s.writes ++ [{ tasks := updatedTasksOf clk id u s.tasks,
                                          lastModified := clk.ms }],
                 toasts := s.toasts ++ [errorToast clk rand msg] } := by
  simp [updateTask, saveData, hdir, hsave, showToast, errorToast, updatedTasksOf]

theorem deleteTask_nodir_eq (env : Env) (clk : DateVal) (rand : String) (id : String)
    (s : KanbanState) (hdir : env.dirSelected = false) :
    deleteTask env clk rand id s
      = { s with tasks := s.tasks.filter (fun t => t.id != id),
                 toasts := showToast clk rand taskDeletedUnsavedMsg ToastType.warning s.toasts } := by
  simp [deleteTask, hdir]

theorem deleteTask_ok_eq (env : Env) (clk : DateVal) (rand : String) (id : String)
    (s : KanbanState) (hdir : env.dirSelected = true) (hsave : env.save = SaveResult.ok) :
    deleteTask env clk rand id s
      = { s with tasks := s.tasks.filter (fun t => t.id != id),
                 writes := s.writes ++ [{ tasks := s.tasks.filter (fun t => t.id != id),
                                          lastModified := clk.ms }],
                 toasts := showToast clk rand taskDeletedMsg ToastType.success s.toasts } := by
  simp [deleteTask, saveData, hdir, hsave]

theorem deleteTask_fail_eq (env : Env) (clk : DateVal) (rand : String) (id : String)
    (s : KanbanState) (msg : String)
    (hdir : env.dirSelected = true) (hsave : env.save = SaveResult.error msg) :
    deleteTask env clk rand id s
      = { s with writes := s.writes ++ [{ tasks := s.tasks.filter (fun t => t.id != id),
                                          lastModified := clk.ms }],
                 toasts := s.toasts ++ [errorToast clk rand msg] } := by
  simp [deleteTask, saveData, hdir, hsave, showToast, errorToast]

theorem updateNote_nodir_eq (env : Env) (clk : DateVal) (rand : String) (id : String)
    (u : NoteUpdates) (s : NotesState) (hdir : env.dirSelected = false) :
    updateNote env clk rand id u s
      = { s with notes := updatedNotesOf clk id u s.notes,
                 toasts := showToast clk rand noteUpdatedUnsavedMsg ToastType.warning s.toasts } := by
  simp [updateNote, hdir, updatedNotesOf]

theorem updateNote_ok_eq (env : Env) (clk : DateVal) (rand : String) (id : String)
    (u : NoteUpdates) (s : NotesState) (hdir : env.dirSelected = true)
    (hsave : env.save = SaveResult.ok) :
    updateNote env clk rand id u s
      = { s with notes := updatedNotesOf clk id u s.notes,
                 writes := s.writes ++ [{ notes := updatedNotesOf clk id u s.notes,
                                          lastModified := clk.iso }],
                 toasts := showToast clk rand noteUpdatedMsg ToastType.success s.toasts } := by
  simp [updateNote, saveDataNotes, hdir, hsave, updatedNotesOf]

theorem updateNote_fail_eq (env : Env) (clk : DateVal) (rand : String) (id : String)
    (u : NoteUpdates) (s : NotesState) (msg : String)
    (hdir : env.dirSelected = true) (hsave : env.save = SaveResult.error msg) :
    updateNote env clk rand id u s
      = { s with writes := s.writes ++ [{ notes := updatedNotesOf clk id u s.notes,
                                          lastModified := clk.iso }],
                 toasts := s.toasts ++ [errorToast clk rand msg] } := by
  simp [updateNote, saveDataNotes, hdir, hsave, showToast, errorToast, updatedNotesOf]

theorem deleteNote_fail_eq (env : Env) (clk : DateVal) (rand : String) (id : String)
    (s : NotesState) (msg : String)
    (hdir : env.dirSelected = true) (hsave : env.save = SaveResult.error msg) :
    deleteNote env clk rand id s
      = { s with writes := s.writes ++ [{ notes := s.notes.filter (fun n => n.id != id),
                                          lastModified := clk.iso }],
                 toasts := s.toasts ++ [errorToast clk rand msg] } := by
  simp [deleteNote, saveDataNotes, hdir, hsave, showToast, errorToast]

theorem deleteNote_ok_eq (env : Env) (clk : DateVal) (rand : String) (id : String)
    (s : NotesState) (hdir : env.dirSelected = true) (hsave : env.save = SaveResult.ok) :
    deleteNote env clk rand id s
      = { s with notes := s.notes.filter (fun n => n.id != id),
                 writes := s.writes ++ [{ notes := s.notes.filter (fun n => n.id != id),
                                          lastModified := clk.iso }],
                 toasts := showToast clk rand noteDeletedMsg ToastType.success s.toasts } := by
  simp [deleteNote, saveDataNotes, hdir, hsave]

theorem deleteNote_nodir_eq (env : Env) (clk : DateVal) (rand : String) (id : String)
    (s : NotesState) (hdir : env.dirSelected = false) :
    deleteNote env clk rand id s
      = { s with notes := s.notes.filter (fun n => n.id != id),
                 toasts := showToast clk rand noteDeletedUnsavedMsg ToastType.warning s.toasts } := by
  simp [deleteNote, hdir]

theorem addNote_fail_eq (env : Env) (clk : DateVal) (rand : String)
    (title content : String) (tags : Option (List String)) (s : NotesState) (msg : String)
    (hdir : env.dirSelected = true) (hsave : env.save = SaveResult.error msg) :
    addNote env clk rand title content tags s
      = (none,
         { s with writes := s.writes ++ [{ notes := newNoteMk clk rand title content tags :: s.notes,
                                           lastModified := clk.iso }],
                  toasts := s.toasts ++ [errorToast clk rand msg] }) := by
  simp [addNote, saveDataNotes, hdir, hsave, showToast, errorToast]

theorem updatedTasksOf_missing (clk : DateVal) (id : String) (u : TaskUpdates)
    (ts : List Task) (h : ∀ t ∈ ts, t.id ≠ id) : updatedTasksOf clk id u ts = ts := by
  unfold updatedTasksOf
  have h2 : ts.map (fun t => if t.id = id then applyTaskUpdates t u clk.ms else t)
      = ts.map (fun t => t) :=
    List.map_congr_left (fun t ht => if_neg (h t ht))
  rw [h2]
  exact List.map_id' ts

theorem updatedNotesOf_missing (clk : DateVal) (id : String) (u : NoteUpdates)
    (ns : List Note) (h : ∀ n ∈ ns, n.id ≠ id) : updatedNotesOf clk id u ns = ns := by
  unfold updatedNotesOf
  have h2 : ns.map (fun n => if n.id = id then applyNoteUpdates n u clk.iso else n)
      = ns.map (fun n => n) :=
    List.map_congr_left (fun n hn => if_neg (h n hn))
  rw [h2]
  exact List.map_id' ns

theorem filterTasks_missing (id : String) (ts : List Task) (h : ∀ t ∈ ts, t.id ≠ id) :
    ts.filter (fun t => t.id != id) = ts := by
  apply List.filter_eq_self.mpr
  intro t ht
  simpa using h t ht

theorem filterNotes_missing (id : String) (ns : List Note) (h : ∀ n ∈ ns, n.id ≠ id) :
    ns.filter (fun n => n.id != id) = ns := by
  apply List.filter_eq_self.mpr
  intro n hn
  simpa using h n hn

theorem findNote_missing (id : String) (ns : List Note) (h : ∀ n ∈ ns, n.id ≠ id) :
    ns.find? (fun n => n.id == id) = none := by
  apply List.find?_eq_none.mpr
  intro n hn
  simpa using h n hn

/-- C2: the claim states that loadKanbanData and loadNotesData raise a typed
error when a directory handle is held but read-write permission is denied.
They do not: both return null (`Except.ok none`, which is not an
`Except.error`), exactly as in the no-handle and missing-file cases. -/
theorem claim2_counterexample :
    loadKanbanData ReadEnv.permissionDenied = Except.ok none ∧
    loadNotesData ReadEnv.permissionDenied = Except.ok none :=
  ⟨rfl, rfl⟩

/-- C2 amended: while a directory capability is held but read-write permission
is denied, loadKanbanData and loadNotesData return a null (absent) result and
raise nothing, just as when no handle is held or the file is missing. -/
theorem claim2_permission_denied_returns_null :
    loadKanbanData ReadEnv.permissionDenied = Except.ok none ∧
    loadNotesData ReadEnv.permissionDenied = Except.ok none ∧
    loadKanbanData ReadEnv.noHandle = Except.ok none ∧
    loadNotesData ReadEnv.noHandle = Except.ok none ∧
    loadKanbanData ReadEnv.fileMissing = Except.ok none ∧
    loadNotesData ReadEnv.fileMissing = Except.ok none :=
  ⟨rfl, rfl, rfl, rfl, rfl, rfl⟩

/-- C7: Scenario A — adding a task titled Buy milk with an empty description to
the empty collection (no failing write) produces a collection with exactly one
task, whose status is todo, whose id is non-empty, and whose createdAt equals
its updatedAt. -/
theorem claim7_scenarioA_add_buy_milk (env : Env) (clk : DateVal) (rand : String)
    (s : KanbanState) (hempty : s.tasks = [])
    (hok : env.dirSelected = false ∨ env.save = SaveResult.ok) :
    (addTask env clk rand "Buy milk" "" s).tasks.length = 1 ∧
    ∀ t ∈ (addTask env clk rand "Buy milk" "" s).tasks,
      t.status = TaskStatus.todo ∧ t.id ≠ "" ∧ t.createdAt = t.updatedAt := by
  have htasks : (addTask env clk rand "Buy milk" "" s).tasks
      = s.tasks ++ [newTaskMk clk rand "Buy milk" ""] := by
    rcases hok with hdir | hsave
    · rw [addTask_nodir_eq env clk rand _ _ s hdir]
    · cases hdir : env.dirSelected with
      | false => rw [addTask_nodir_eq env clk rand _ _ s hdir]
      | true => rw [addTask_ok_eq env clk rand _ _ s hdir hsave]
  rw [htasks, hempty]
  refine ⟨rfl, ?_⟩
  intro t ht
  simp only [List.nil_append, List.mem_singleton] at ht
  subst ht
  refine ⟨rfl, ?_, rfl⟩
  intro hid
  have hl := congrArg String.length hid
  simp only [newTaskMk, mkTaskId] at hl
  rw [String.length_append, String.length_append, String.length_append] at hl
  have h5 : ("task-" : String).length = 5 := by decide
  have h1 : ("-" : String).length = 1 := by decide
  have h0 : ("" : String).length = 0 := by decide
  omega

/-- C7 witness: a concrete run of Scenario A. -/
theorem claim7_scenarioA_add_buy_milk_witness :
    (addTask { dirSelected := false, save := SaveResult.ok }
        { ms := 1700000000000, iso := "2023-11-14T22:13:20.000Z" } "abc123def"
        "Buy milk" "" { tasks := [], toasts := [], writes := [] }).tasks.length = 1 ∧
    ∀ t ∈ (addTask { dirSelected := false, save := SaveResult.ok }
        { ms := 1700000000000, iso := "2023-11-14T22:13:20.000Z" } "abc123def"
        "Buy milk" "" { tasks := [], toasts := [], writes := [] }).tasks,
      t.status = TaskStatus.todo ∧ t.id ≠ "" ∧ t.createdAt = t.updatedAt :=
  claim7_scenarioA_add_buy_milk _ _ _ _ rfl (Or.inl rfl)

/-- Outcome required of a failed mutation on the task store: the collection
equals the pre-call collection and exactly the one error toast carrying the
adapter's message was appended. -/
def rolledBackTasks (before after : KanbanState) (clk : DateVal) (rand : String)
    (msg : String) : Prop :=
  after.tasks = before.tasks ∧ after.toasts = before.toasts ++ [errorToast clk rand msg]

/-- Outcome required of a failed mutation on the note store. -/
def rolledBackNotes (before after : NotesState) (clk : DateVal) (rand : String)
    (msg : String) : Prop :=
  after.notes = before.notes ∧ after.toasts = before.toasts ++ [errorToast clk rand msg]

/-- Concrete fixtures used by the witness theorems. -/
def envFailW : Env := { dirSelected := true, save := SaveResult.error "disk full" }

def envOkW : Env := { dirSelected := true, save := SaveResult.ok }

def envNoDirW : Env := { dirSelected := false, save := SaveResult.ok }

def clkW : DateVal := { ms := 1700000000002, iso := "2023-11-14T22:13:20.002Z" }

def taskW : Task :=
  { id := "t1", title := "a", description := "b", status := TaskStatus.todo,
    createdAt := 1700000000000, updatedAt := 1700000000000 }

def noteW : Note :=
  { id := "n1", title := "t", content := "c", tags := some ["x"], isFavorite := false,
    createdAt := "2023-11-14T22:13:20.000Z", updatedAt := "2023-11-14T22:13:20.000Z" }

def kstateW : KanbanState := { tasks := [taskW], toasts := [], writes := [] }

def nstateW : NotesState := { notes := [noteW], toasts := [], writes := [], isLoading := false }

/-- C1: while a directory is held and the adapter write fails with message
`msg`, every store mutation (addTask, updateTask, deleteTask, moveTask,
addNote, updateNote, deleteNote, and toggleFavorite on a present id) leaves
the in-memory collection exactly as it was before the call and appends exactly
one error-severity toast carrying `msg`. -/
theorem claim1_failed_write_rolls_back (env : Env) (clk : DateVal) (rand : String)
    (msg : String) (hdir : env.dirSelected = true) (hsave : env.save = SaveResult.error msg)
    (title description id : String) (u : TaskUpdates) (newStatus : TaskStatus)
    (ntitle ncontent : String) (ntags : Option (List String)) (nid : String)
    (nu : NoteUpdates) (tid : String) (note : Note)
    (s : KanbanState) (sn : NotesState)
    (hfind : sn.notes.find? (fun n => n.id == tid) = some note) :
    rolledBackTasks s (addTask env clk rand title description s) clk rand msg ∧
    rolledBackTasks s (updateTask env clk rand id u s) clk rand msg ∧
    rolledBackTasks s (deleteTask env clk rand id s) clk rand msg ∧
    rolledBackTasks s (moveTask env clk rand id newStatus s) clk rand msg ∧
    rolledBackNotes sn (addNote env clk rand ntitle ncontent ntags sn).snd clk rand msg ∧
    rolledBackNotes sn (updateNote env clk rand nid nu sn) clk rand msg ∧
    rolledBackNotes sn (deleteNote env clk rand nid sn) clk rand msg ∧
    rolledBackNotes sn (toggleFavorite env clk rand tid sn) clk rand msg := by
  refine ⟨?_, ?_, ?_, ?_, ?_, ?_, ?_, ?_⟩
  · rw [rolledBackTasks, addTask_fail_eq env clk rand title description s msg hdir hsave]
    exact ⟨rfl, rfl⟩
  · rw [rolledBackTasks, updateTask_fail_eq env clk rand id u s msg hdir hsave]
    exact ⟨rfl, rfl⟩
  · rw [rolledBackTasks, deleteTask_fail_eq env clk rand id s msg hdir hsave]
    exact ⟨rfl, rfl⟩
  · rw [rolledBackTasks, moveTask,
        updateTask_fail_eq env clk rand id _ s msg hdir hsave]
    exact ⟨rfl, rfl⟩
  · rw [rolledBackNotes, addNote_fail_eq env clk rand ntitle ncontent ntags sn msg hdir hsave]
    exact ⟨rfl, rfl⟩
  · rw [rolledBackNotes, updateNote_fail_eq env clk rand nid nu sn msg hdir hsave]
    exact ⟨rfl, rfl⟩
  · rw [rolledBackNotes, deleteNote_fail_eq env clk rand nid sn msg hdir hsave]
    exact ⟨rfl, rfl⟩
  · rw [rolledBackNotes, toggleFavorite, hfind]
    dsimp only
    rw [updateNote_fail_eq env clk rand tid _ sn msg hdir hsave]
    exact ⟨rfl, rfl⟩

/-- C1 witness: a concrete failing write over a one-task, one-note state. -/
theorem claim1_failed_write_rolls_back_witness :
    rolledBackTasks kstateW (addTask envFailW clkW "r" "T" "D" kstateW) clkW "r" "disk full" ∧
    rolledBackTasks kstateW (updateTask envFailW clkW "r" "t1" {} kstateW) clkW "r" "disk full" ∧
    rolledBackTasks kstateW (deleteTask envFailW clkW "r" "t1" kstateW) clkW "r" "disk full" ∧
    rolledBackTasks kstateW (moveTask envFailW clkW "r" "t1" TaskStatus.done kstateW)
      clkW "r" "disk full" ∧
    rolledBackNotes nstateW (addNote envFailW clkW "r" "NT" "NC" none nstateW).snd
      clkW "r" "disk full" ∧
    rolledBackNotes nstateW (updateNote envFailW clkW "r" "n1" {} nstateW) clkW "r" "disk full" ∧
    rolledBackNotes nstateW (deleteNote envFailW clkW "r" "n1" nstateW) clkW "r" "disk full" ∧
    rolledBackNotes nstateW (toggleFavorite envFailW clkW "r" "n1" nstateW) clkW "r" "disk full" :=
  claim1_failed_write_rolls_back envFailW clkW "r" "disk full" rfl rfl
    "T" "D" "t1" {} TaskStatus.done "NT" "NC" none "n1" {} "n1" noteW
    kstateW nstateW (by decide)

theorem runTaskOp_nodir (env : Env) (hdir : env.dirSelected = false) (op : TaskOp)
    (s : KanbanState) :
    (runTaskOp env op s).tasks = applyTaskOpPure op s.tasks ∧
    (runTaskOp env op s).writes = s.writes := by
  cases op with
  | add clk rand title description =>
      dsimp only [runTaskOp]
      rw [addTask_nodir_eq env clk rand title description s hdir]
      exact ⟨rfl, rfl⟩
  | update clk rand id u =>
      dsimp only [runTaskOp]
      rw [updateTask_nodir_eq env clk rand id u s hdir]
      exact ⟨rfl, rfl⟩
  | del clk rand id =>
      dsimp only [runTaskOp]
      rw [deleteTask_nodir_eq env clk rand id s hdir]
      exact ⟨rfl, rfl⟩

/-- C3: with no directory held, a sequence of add/update/delete store calls
leaves the in-memory collection equal to the pure fold of the corresponding
collection functions over the initial collection, and no persistence write is
ever attempted (so no rollback can trigger). -/
theorem claim3_no_directory_pure_fold (env : Env) (hdir : env.dirSelected = false)
    (ops : List TaskOp) (s : KanbanState) :
    (runTaskOps env ops s).tasks
      = ops.foldl (fun ts op => applyTaskOpPure op ts) s.tasks ∧
    (runTaskOps env ops s).writes = s.writes := by
  induction ops generalizing s with
  | nil => exact ⟨rfl, rfl⟩
  | cons op rest ih =>
      have hstep := runTaskOp_nodir env hdir op s
      have hrun : runTaskOps env (op :: rest) s = runTaskOps env rest (runTaskOp env op s) := rfl
      have hfold : (op :: rest).foldl (fun ts o => applyTaskOpPure o ts) s.tasks
          = rest.foldl (fun ts o => applyTaskOpPure o ts) (applyTaskOpPure op s.tasks) := rfl
      rw [hrun, hfold, ← hstep.1]
      have hrest := ih (runTaskOp env op s)
      exact ⟨hrest.1, hrest.2.trans hstep.2⟩

/-- Concrete operation sequence for the C3 witness. -/
def opsW : List TaskOp :=
  [TaskOp.add clkW "r1" "x" "y",
   TaskOp.update clkW "r2" "t1" { title := some "z" },
   TaskOp.del clkW "r3" "t1"]

/-- C3 witness: a concrete three-operation run with no directory held. -/
theorem claim3_no_directory_pure_fold_witness :
    (runTaskOps envNoDirW opsW kstateW).tasks
      = opsW.foldl (fun ts op => applyTaskOpPure op ts) kstateW.tasks ∧
    (runTaskOps envNoDirW opsW kstateW).writes = kstateW.writes :=
  claim3_no_directory_pure_fold envNoDirW rfl opsW kstateW

theorem updateTask_tasks_missing (env : Env) (clk : DateVal) (rand : String) (id : String)
    (u : TaskUpdates) (s : KanbanState) (h : ∀ t ∈ s.tasks, t.id ≠ id) :
    (updateTask env clk rand id u s).tasks = s.tasks := by
  have hm := updatedTasksOf_missing clk id u s.tasks h
  cases hdir : env.dirSelected with
  | false => rw [updateTask_nodir_eq env clk rand id u s hdir]; exact hm
  | true =>
      cases hsave : env.save with
      | ok => rw [updateTask_ok_eq env clk rand id u s hdir hsave]; exact hm
      | error msg => rw [updateTask_fail_eq env clk rand id u s msg hdir hsave]

theorem deleteTask_tasks_missing (env : Env) (clk : DateVal) (rand : String) (id : String)
    (s : KanbanState) (h : ∀ t ∈ s.tasks, t.id ≠ id) :
    (deleteTask env clk rand id s).tasks = s.tasks := by
  have hm := filterTasks_missing id s.tasks h
  cases hdir : env.dirSelected with
  | false => rw [deleteTask_nodir_eq env clk rand id s hdir]; exact hm
  | true =>
      cases hsave : env.save with
      | ok => rw [deleteTask_ok_eq env clk rand id s hdir hsave]; exact hm
      | error msg => rw [deleteTask_fail_eq env clk rand id s msg hdir hsave]

theorem updateNote_notes_missing (env : Env) (clk : DateVal) (rand : String) (id : String)
    (u : NoteUpdates) (s : NotesState) (h : ∀ n ∈ s.notes, n.id ≠ id) :
    (updateNote env clk rand id u s).notes = s.notes := by
  have hm := updatedNotesOf_missing clk id u s.notes h
  cases hdir : env.dirSelected with
  | false => rw [updateNote_nodir_eq env clk rand id u s hdir]; exact hm
  | true =>
      cases hsave : env.save with
      | ok => rw [updateNote_ok_eq env clk rand id u s hdir hsave]; exact hm
      | error msg => rw [updateNote_fail_eq env clk rand id u s msg hdir hsave]

theorem deleteNote_notes_missing (env : Env) (clk : DateVal) (rand : String) (id : String)
    (s : NotesState) (h : ∀ n ∈ s.notes, n.id ≠ id) :
    (deleteNote env clk rand id s).notes = s.notes := by
  have hm := filterNotes_missing id s.notes h
  cases hdir : env.dirSelected with
  | false => rw [deleteNote_nodir_eq env clk rand id s hdir]; exact hm
  | true =>
      cases hsave : env.save with
      | ok => rw [deleteNote_ok_eq env clk rand id s hdir hsave]; exact hm
      | error msg => rw [deleteNote_fail_eq env clk rand id s msg hdir hsave]

/-- No message beyond those already present is error-severity. -/
def noNewErrorToast (before after : List ToastMessage) : Prop :=
  ∀ m ∈ after, m ∈ before ∨ m.type ≠ ToastType.error

theorem noNewErrorToast_append (before : List ToastMessage) (m : ToastMessage)
    (hm : m.type ≠ ToastType.error) : noNewErrorToast before (before ++ [m]) := by
  intro x hx
  rcases List.mem_append.mp hx with h | h
  · exact Or.inl h
  · right
    rw [List.mem_singleton] at h
    subst h
    exact hm

/-- C9: updating or deleting an identifier that matches no task and no note
leaves every collection unchanged (whatever the persistence environment), and
when the write does not fail no error-severity toast is emitted. -/
theorem claim9_missing_id_is_noop (env : Env) (clk : DateVal) (rand : String) (id : String)
    (u : TaskUpdates) (nu : NoteUpdates) (s : KanbanState) (sn : NotesState)
    (hT : ∀ t ∈ s.tasks, t.id ≠ id) (hN : ∀ n ∈ sn.notes, n.id ≠ id) :
    (updateTask env clk rand id u s).tasks = s.tasks ∧
    (deleteTask env clk rand id s).tasks = s.tasks ∧
    (updateNote env clk rand id nu sn).notes = sn.notes ∧
    (deleteNote env clk rand id sn).notes = sn.notes ∧
    (env.dirSelected = false ∨ env.save = SaveResult.ok →
      noNewErrorToast s.toasts (updateTask env clk rand id u s).toasts ∧
      noNewErrorToast s.toasts (deleteTask env clk rand id s).toasts ∧
      noNewErrorToast sn.toasts (updateNote env clk rand id nu sn).toasts ∧
      noNewErrorToast sn.toasts (deleteNote env clk rand id sn).toasts) := by
  refine ⟨updateTask_tasks_missing env clk rand id u s hT,
          deleteTask_tasks_missing env clk rand id s hT,
          updateNote_notes_missing env clk rand id nu sn hN,
          deleteNote_notes_missing env clk rand id sn hN, ?_⟩
  intro hok
  have hcase : env.dirSelected = false ∨ (env.dirSelected = true ∧ env.save = SaveResult.ok) := by
    rcases hok with h | h
    · exact Or.inl h
    · cases hd : env.dirSelected
      · exact Or.inl rfl
      · exact Or.inr ⟨rfl, h⟩
  rcases hcase with hdir | ⟨hdir, hsave⟩
  · rw [updateTask_nodir_eq env clk rand id u s hdir,
        deleteTask_nodir_eq env clk rand id s hdir,
        updateNote_nodir_eq env clk rand id nu sn hdir,
        deleteNote_nodir_eq env clk rand id sn hdir]
    exact ⟨noNewErrorToast_append _ _ (by simp),
           noNewErrorToast_append _ _ (by simp),
           noNewErrorToast_append _ _ (by simp),
           noNewErrorToast_append _ _ (by simp)⟩
  · rw [updateTask_ok_eq env clk rand id u s hdir hsave,
        deleteTask_ok_eq env clk rand id s hdir hsave,
        updateNote_ok_eq env clk rand id nu sn hdir hsave,
        deleteNote_ok_eq env clk rand id sn hdir hsave]
    exact ⟨noNewErrorToast_append _ _ (by simp),
           noNewErrorToast_append _ _ (by simp),
           noNewErrorToast_append _ _ (by simp),
           noNewErrorToast_append _ _ (by simp)⟩

/-- C9 witness: the identifier zz matches nothing in the one-task, one-note
fixtures; the directory is held and the write succeeds. -/
theorem claim9_missing_id_is_noop_witness :
    (updateTask envOkW clkW "r" "zz" {} kstateW).tasks = kstateW.tasks ∧
    (deleteTask envOkW clkW "r" "zz" kstateW).tasks = kstateW.tasks ∧
    (updateNote envOkW clkW "r" "zz" {} nstateW).notes = nstateW.notes ∧
    (deleteNote envOkW clkW "r" "zz" nstateW).notes = nstateW.notes ∧
    (envOkW.dirSelected = false ∨ envOkW.save = SaveResult.ok →
      noNewErrorToast kstateW.toasts (updateTask envOkW clkW "r" "zz" {} kstateW).toasts ∧
      noNewErrorToast kstateW.toasts (deleteTask envOkW clkW "r" "zz" kstateW).toasts ∧
      noNewErrorToast nstateW.toasts (updateNote envOkW clkW "r" "zz" {} nstateW).toasts ∧
      noNewErrorToast nstateW.toasts (deleteNote envOkW clkW "r" "zz" nstateW).toasts) :=
  claim9_missing_id_is_noop envOkW clkW "r" "zz" {} {} kstateW nstateW
    (by decide) (by decide)

/-- C10: on an identifier matching no note, toggleFavorite returns the state
untouched — no collection change, no write attempt, no toast — while
updateNote on the same missing identifier still writes the (unchanged)
document and emits a success toast. -/
theorem claim10_toggle_vs_update_missing (env : Env) (clk : DateVal) (rand : String)
    (id : String) (nu : NoteUpdates) (s : NotesState)
    (hid : ∀ n ∈ s.notes, n.id ≠ id)
    (hdir : env.dirSelected = true) (hsave : env.save = SaveResult.ok) :
    toggleFavorite env clk rand id s = s ∧
    (updateNote env clk rand id nu s).notes = s.notes ∧
    (updateNote env clk rand id nu s).writes
      = s.writes ++ [{ notes := s.notes, lastModified := clk.iso }] ∧
    (updateNote env clk rand id nu s).toasts
      = s.toasts ++ [{ id := mkToastId clk rand, message := noteUpdatedMsg,
                       type := ToastType.success }] := by
  have hfind := findNote_missing id s.notes hid
  have hm := updatedNotesOf_missing clk id nu s.notes hid
  refine ⟨?_, updateNote_notes_missing env clk rand id nu s hid, ?_, ?_⟩
  · rw [toggleFavorite, hfind]
  · simp only [updateNote_ok_eq env clk rand id nu s hdir hsave, hm]
  · simp only [updateNote_ok_eq env clk rand id nu s hdir hsave, showToast]

/-- C10 witness: identifier zz matches no note of the fixture; directory held,
write succeeding. -/
theorem claim10_toggle_vs_update_missing_witness :
    toggleFavorite envOkW clkW "r" "zz" nstateW = nstateW ∧
    (updateNote envOkW clkW "r" "zz" {} nstateW).notes = nstateW.notes ∧
    (updateNote envOkW clkW "r" "zz" {} nstateW).writes
      = nstateW.writes ++ [{ notes := nstateW.notes, lastModified := clkW.iso }] ∧
    (updateNote envOkW clkW "r" "zz" {} nstateW).toasts
      = nstateW.toasts ++ [{ id := mkToastId clkW "r", message := noteUpdatedMsg,
                             type := ToastType.success }] :=
  claim10_toggle_vs_update_missing envOkW clkW "r" "zz" {} nstateW (by decide) rfl rfl

/-- C8: Scenario B — with a non-failing persistence environment, moving task t1
to done rewrites the collection pointwise: the tasks with id t1 get status done
and a strictly larger updatedAt (given that the clock strictly advanced), and
every task with a different id is mapped to itself. -/
theorem claim8_move_t1_to_done (env : Env) (clk : DateVal) (rand : String) (s : KanbanState)
    (hok : env.dirSelected = false ∨ env.save = SaveResult.ok)
    (hhas : ∃ t ∈ s.tasks, t.id = "t1" ∧ t.status = TaskStatus.todo)
    (hclk : ∀ t ∈ s.tasks, t.id = "t1" → t.updatedAt < clk.ms) :
    (moveTask env clk rand "t1" TaskStatus.done s).tasks
      = s.tasks.map (fun t => if t.id = "t1"
          then { t with status := TaskStatus.done, updatedAt := clk.ms } else t) ∧
    (∀ t ∈ s.tasks, t.id = "t1" →
        (({ t with status := TaskStatus.done, updatedAt := clk.ms } : Task).status
            = TaskStatus.done ∧
         t.updatedAt
            < ({ t with status := TaskStatus.done, updatedAt := clk.ms } : Task).updatedAt)) ∧
    (∀ t ∈ s.tasks, t.id ≠ "t1" →
        (if t.id = "t1" then { t with status := TaskStatus.done, updatedAt := clk.ms } else t)
          = t) := by
  have htasks : (moveTask env clk rand "t1" TaskStatus.done s).tasks
      = updatedTasksOf clk "t1" { status := some TaskStatus.done } s.tasks := by
    rcases hok with hdir | hsave
    · rw [moveTask, updateTask_nodir_eq env clk rand _ _ s hdir]
    · cases hdir : env.dirSelected with
      | false => rw [moveTask, updateTask_nodir_eq env clk rand _ _ s hdir]
      | true => rw [moveTask, updateTask_ok_eq env clk rand _ _ s hdir hsave]
  refine ⟨?_, ?_, ?_⟩
  · rw [htasks]
    rfl
  · intro t ht hid
    exact ⟨rfl, hclk t ht hid⟩
  · intro t ht hid
    exact if_neg hid

/-- C8 witness: the fixture state holds t1 with status todo; the clock strictly
advanced; the write succeeds. -/
theorem claim8_move_t1_to_done_witness :
    (moveTask envOkW clkW "r" "t1" TaskStatus.done kstateW).tasks
      = kstateW.tasks.map (fun t => if t.id = "t1"
          then { t with status := TaskStatus.done, updatedAt := clkW.ms } else t) ∧
    (∀ t ∈ kstateW.tasks, t.id = "t1" →
        (({ t with status := TaskStatus.done, updatedAt := clkW.ms } : Task).status
            = TaskStatus.done ∧
         t.updatedAt
            < ({ t with status := TaskStatus.done, updatedAt := clkW.ms } : Task).updatedAt)) ∧
    (∀ t ∈ kstateW.tasks, t.id ≠ "t1" →
        (if t.id = "t1" then { t with status := TaskStatus.done, updatedAt := clkW.ms } else t)
          = t) :=
  claim8_move_t1_to_done envOkW clkW "r" kstateW (Or.inr rfl) (by decide) (by decide)

/-- C6 counterexample: an update whose partial payload sets createdAt to an
instant later than the operation's clock leaves the task with
updatedAt strictly below createdAt, so the invariant does not survive an
arbitrary partial update. -/
theorem claim6_counterexample :
    ∃ t ∈ (updateTask { dirSelected := false, save := SaveResult.ok }
        { ms := 5, iso := "T5" } "r" "t1" { createdAt := some 10 }
        { tasks := [{ id := "t1", title := "a", description := "b",
                      status := TaskStatus.todo, createdAt := 0, updatedAt := 0 }],
          toasts := [], writes := [] }).tasks,
      t.updatedAt < t.createdAt := by decide

/-- C6 amended: provided the clock is not behind any stored timestamp and the
partial update does not set createdAt past the operation's instant, every
store operation (add, update, delete, move — in every persistence
environment, rollback included) preserves createdAt less-or-equal updatedAt;
moreover the merge of updateTask always stamps updatedAt with the operation's
instant (so updatedAt changes on every effective mutation, moves included),
and a fresh task has createdAt equal to updatedAt. -/
theorem claim6_timestamps (env : Env) (clk : DateVal) (rand : String)
    (title description id : String) (u : TaskUpdates) (newStatus : TaskStatus)
    (s : KanbanState)
    (hinv : ∀ t ∈ s.tasks, t.createdAt ≤ t.updatedAt)
    (hclock : ∀ t ∈ s.tasks, t.createdAt ≤ clk.ms)
    (hu : ∀ c, u.createdAt = some c → c ≤ clk.ms) :
    (∀ t ∈ (addTask env clk rand title description s).tasks, t.createdAt ≤ t.updatedAt) ∧
    (∀ t ∈ (updateTask env clk rand id u s).tasks, t.createdAt ≤ t.updatedAt) ∧
    (∀ t ∈ (deleteTask env clk rand id s).tasks, t.createdAt ≤ t.updatedAt) ∧
    (∀ t ∈ (moveTask env clk rand id newStatus s).tasks, t.createdAt ≤ t.updatedAt) ∧
    (∀ t v n, (applyTaskUpdates t v n).updatedAt = n) ∧
    (newTaskMk clk rand title description).createdAt
      = (newTaskMk clk rand title description).updatedAt := by
  have hmap : ∀ u2 : TaskUpdates, (∀ c, u2.createdAt = some c → c ≤ clk.ms) →
      ∀ t ∈ updatedTasksOf clk id u2 s.tasks, t.createdAt ≤ t.updatedAt := by
    intro u2 hu2 t ht
    rw [updatedTasksOf, List.mem_map] at ht
    obtain ⟨t0, ht0, rfl⟩ := ht
    by_cases hcase : t0.id = id
    · rw [if_pos hcase]
      show (applyTaskUpdates t0 u2 clk.ms).createdAt ≤ clk.ms
      dsimp only [applyTaskUpdates]
      cases hc : u2.createdAt with
      | none => exact hclock t0 ht0
      | some c => exact hu2 c hc
    · rw [if_neg hcase]
      exact hinv t0 ht0
  have happend : ∀ t ∈ s.tasks ++ [newTaskMk clk rand title description],
      t.createdAt ≤ t.updatedAt := by
    intro t ht
    rcases List.mem_append.mp ht with h1 | h1
    · exact hinv t h1
    · rw [List.mem_singleton] at h1
      subst h1
      exact le_refl _
  refine ⟨?_, ?_, ?_, ?_, fun t v n => rfl, rfl⟩
  · cases hdir : env.dirSelected with
    | false =>
        rw [addTask_nodir_eq env clk rand title description s hdir]
        exact happend
    | true =>
        cases hsave : env.save with
        | ok =>
            rw [addTask_ok_eq env clk rand title description s hdir hsave]
            exact happend
        | error msg =>
            rw [addTask_fail_eq env clk rand title description s msg hdir hsave]
            exact hinv
  · cases hdir : env.dirSelected with
    | false =>
        rw [updateTask_nodir_eq env clk rand id u s hdir]
        exact hmap u hu
    | true =>
        cases hsave : env.save with
        | ok =>
            rw [updateTask_ok_eq env clk rand id u s hdir hsave]
            exact hmap u hu
        | error msg =>
            rw [updateTask_fail_eq env clk rand id u s msg hdir hsave]
            exact hinv
  · have hfilter : ∀ t ∈ s.tasks.filter (fun t2 => t2.id != id), t.createdAt ≤ t.updatedAt :=
      fun t ht => hinv t (List.mem_of_mem_filter ht)
    cases hdir : env.dirSelected with
    | false =>
        rw [deleteTask_nodir_eq env clk rand id s hdir]
        exact hfilter
    | true =>
        cases hsave : env.save with
        | ok =>
            rw [deleteTask_ok_eq env clk rand id s hdir hsave]
            exact hfilter
        | error msg =>
            rw [deleteTask_fail_eq env clk rand id s msg hdir hsave]
            exact hinv
  · have hmove : ∀ c, ({ status := some newStatus } : TaskUpdates).createdAt = some c →
        c ≤ clk.ms := fun c h => Option.noConfusion h
    cases hdir : env.dirSelected with
    | false =>
        rw [moveTask, updateTask_nodir_eq env clk rand id _ s hdir]
        exact hmap _ hmove
    | true =>
        cases hsave : env.save with
        | ok =>
            rw [moveTask, updateTask_ok_eq env clk rand id _ s hdir hsave]
            exact hmap _ hmove
        | error msg =>
            rw [moveTask, updateTask_fail_eq env clk rand id _ s msg hdir hsave]
            exact hinv

/-- C6 witness: concrete run over the fixture state with an empty partial
update. -/
theorem claim6_timestamps_witness :
    (∀ t ∈ (addTask envOkW clkW "r" "T" "D" kstateW).tasks, t.createdAt ≤ t.updatedAt) ∧
    (∀ t ∈ (updateTask envOkW clkW "r" "t1" {} kstateW).tasks, t.createdAt ≤ t.updatedAt) ∧
    (∀ t ∈ (deleteTask envOkW clkW "r" "t1" kstateW).tasks, t.createdAt ≤ t.updatedAt) ∧
    (∀ t ∈ (moveTask envOkW clkW "r" "t1" TaskStatus.done kstateW).tasks,
        t.createdAt ≤ t.updatedAt) ∧
    (∀ t v n, (applyTaskUpdates t v n).updatedAt = n) ∧
    (newTaskMk clkW "r" "T" "D").createdAt = (newTaskMk clkW "r" "T" "D").updatedAt :=
  claim6_timestamps envOkW clkW "r" "T" "D" "t1" {} TaskStatus.done kstateW
    (by decide) (by decide) (fun c h => Option.noConfusion h)

/-- C4: a notes document in which some note carries isFavorite as the string
true fails isValidNote and hence isValidNotesData; loadNotesData raises the
structural-corruption error (neither null nor a document is returned); and the
initial loadNotes over an empty collection leaves the collection empty while
surfacing one error toast. -/
theorem claim4_string_isFavorite_rejected (d note : JsonVal) (l : List JsonVal)
    (hnotes : getField d "notes" = some (JsonVal.arr l)) (hmem : note ∈ l)
    (hfav : getField note "isFavorite" = some (JsonVal.str "true"))
    (env : Env) (clk : DateVal) (rand : String) (s : NotesState)
    (hdir : env.dirSelected = true) (hempty : s.notes = []) :
    isValidNote note = false ∧
    isValidNotesData d = false ∧
    loadNotesData (ReadEnv.fileContents (some d)) = Except.error notesStructErrorMsg ∧
    (loadNotes env (ReadEnv.fileContents (some d)) clk rand s).notes = [] ∧
    (loadNotes env (ReadEnv.fileContents (some d)) clk rand s).toasts
      = s.toasts ++ [errorToast clk rand notesStructErrorMsg] := by
  have hvn : isValidNote note = false := by
    simp [isValidNote, hfav, isJBool]
  have hvd : isValidNotesData d = false := by
    unfold isValidNotesData
    rw [hnotes]
    dsimp only
    have hall : l.all isValidNote = false :=
      List.all_eq_false.mpr ⟨note, hmem, by simp [hvn]⟩
    rw [hall]
    rfl
  have hload : loadNotesData (ReadEnv.fileContents (some d)) = Except.error notesStructErrorMsg := by
    simp [loadNotesData, hvd]
  have hln : loadNotes env (ReadEnv.fileContents (some d)) clk rand s
      = { s with toasts := showToast clk rand notesStructErrorMsg ToastType.error s.toasts,
                 isLoading := false } := by
    simp [loadNotes, hdir, hload]
  refine ⟨hvn, hvd, hload, ?_, ?_⟩
  · rw [hln]
    exact hempty
  · rw [hln]
    rfl

/-- Fixtures for the C4 witness: a notes document whose single note has
isFavorite as the string true. -/
def corruptNoteW : JsonVal :=
  JsonVal.obj [("id", JsonVal.str "n1"), ("title", JsonVal.str "t"),
               ("content", JsonVal.str "c"), ("isFavorite", JsonVal.str "true"),
               ("createdAt", JsonVal.str "A"), ("updatedAt", JsonVal.str "B")]

def corruptDocW : JsonVal :=
  JsonVal.obj [("notes", JsonVal.arr [corruptNoteW]), ("lastModified", JsonVal.str "L")]

def emptyNotesStateW : NotesState :=
  { notes := [], toasts := [], writes := [], isLoading := true }

/-- C4 witness: the concrete corrupt document. -/
theorem claim4_string_isFavorite_rejected_witness :
    isValidNote corruptNoteW = false ∧
    isValidNotesData corruptDocW = false ∧
    loadNotesData (ReadEnv.fileContents (some corruptDocW))
      = Except.error notesStructErrorMsg ∧
    (loadNotes envOkW (ReadEnv.fileContents (some corruptDocW)) clkW "r"
        emptyNotesStateW).notes = [] ∧
    (loadNotes envOkW (ReadEnv.fileContents (some corruptDocW)) clkW "r"
        emptyNotesStateW).toasts
      = emptyNotesStateW.toasts ++ [errorToast clkW "r" notesStructErrorMsg] :=
  claim4_string_isFavorite_rejected corruptDocW corruptNoteW [corruptNoteW]
    rfl (List.mem_singleton.mpr rfl) rfl envOkW clkW "r" emptyNotesStateW rfl rfl

/-- C5: loading a valid notes document in which some note lacks the tags field
raises no validation error; the collection is populated from the document and
contains the loaded note, whose tags resolve to the empty sequence; no toast
is emitted. -/
theorem claim5_missing_tags_resolve_empty (d note : JsonVal) (l : List JsonVal)
    (hnotes : getField d "notes" = some (JsonVal.arr l)) (hmem : note ∈ l)
    (htags : getField note "tags" = none)
    (hvalid : isValidNotesData d = true)
    (env : Env) (clk : DateVal) (rand : String) (s : NotesState)
    (hdir : env.dirSelected = true) :
    loadNotesData (ReadEnv.fileContents (some d)) = Except.ok (some d) ∧
    (loadNotes env (ReadEnv.fileContents (some d)) clk rand s).notes = decodeNotesDoc d ∧
    decodeNote note ∈ (loadNotes env (ReadEnv.fileContents (some d)) clk rand s).notes ∧
    resolvedTags (decodeNote note) = [] ∧
    (loadNotes env (ReadEnv.fileContents (some d)) clk rand s).toasts = s.toasts := by
  have hload : loadNotesData (ReadEnv.fileContents (some d)) = Except.ok (some d) := by
    simp [loadNotesData, hvalid]
  have hln : loadNotes env (ReadEnv.fileContents (some d)) clk rand s
      = { s with notes := decodeNotesDoc d, isLoading := false } := by
    simp [loadNotes, hdir, hload]
  have hpop : (loadNotes env (ReadEnv.fileContents (some d)) clk rand s).notes
      = decodeNotesDoc d := by
    rw [hln]
  refine ⟨hload, hpop, ?_, ?_, ?_⟩
  · rw [hpop, decodeNotesDoc]
    unfold docNotes
    rw [hnotes]
    dsimp only
    exact List.mem_map_of_mem decodeNote hmem
  · simp [resolvedTags, decodeNote, decodeTags, htags]
  · rw [hln]

/-- Fixtures for the C5 witness: a valid notes document whose single note has
no tags field. -/
def legacyNoteW : JsonVal :=
  JsonVal.obj [("id", JsonVal.str "n1"), ("title", JsonVal.str "t"),
               ("content", JsonVal.str "c"), ("isFavorite", JsonVal.bool false),
               ("createdAt", JsonVal.str "A"), ("updatedAt", JsonVal.str "B")]

def legacyDocW : JsonVal :=
  JsonVal.obj [("notes", JsonVal.arr [legacyNoteW]), ("lastModified", JsonVal.str "L")]

/-- C5 witness: the concrete legacy document. -/
theorem claim5_missing_tags_resolve_empty_witness :
    loadNotesData (ReadEnv.fileContents (some legacyDocW)) = Except.ok (some legacyDocW) ∧
    (loadNotes envOkW (ReadEnv.fileContents (some legacyDocW)) clkW "r"
        emptyNotesStateW).notes = decodeNotesDoc legacyDocW ∧
    decodeNote legacyNoteW ∈ (loadNotes envOkW (ReadEnv.fileContents (some legacyDocW))
        clkW "r" emptyNotesStateW).notes ∧
    resolvedTags (decodeNote legacyNoteW) = [] ∧
    (loadNotes envOkW (ReadEnv.fileContents (some legacyDocW)) clkW "r"
        emptyNotesStateW).toasts = emptyNotesStateW.toasts :=
  claim5_missing_tags_resolve_empty legacyDocW legacyNoteW [legacyNoteW]
    rfl (List.mem_singleton.mpr rfl) rfl (by decide) envOkW clkW "r" emptyNotesStateW rfl

end Kanban
